import Mathlib

/-!
Verification development for the plan-execute-replan agent.

Shallow embedding of the core of the repository:
- the tool dispatcher (tool_processor.py),
- the step executor inner loop (step_executor.py),
- the provider adapter call construction (llm_utils.py),
- the orchestrator (plan_exec_agent.py).

External collaborators are modelled as oracles supplied through environment
records: the language model is a scripted stream of normalized responses, and
the Arcade tool backend is a record of functions that may also fail with an
exception message. Python dictionaries are modelled as insertion-ordered
association lists, Python dynamic values as the inductive type PyVal, and
Python exceptions as the error side of Except.
-/

set_option linter.unusedVariables false

/-- Model provider enum, from arcade_utils.ModelProvider. -/
inductive ModelProvider
  | anthropic
  | openai
deriving DecidableEq, Repr

/-- Python exceptions that the embedded code can raise. typeError models the
TypeError raised by a membership test on None, keyError a missing dict key,
indexError indexing an empty list, and noMoreResponses is a modelling artifact
for a model call made after the scripted response stream is exhausted. -/
inductive RunError
  | typeError
  | keyError
  | indexError
  | noMoreResponses
deriving DecidableEq, Repr

/-- Python run-time values that flow through tool arguments and tool results.
pynone is the Python None value. -/
inductive PyVal
  | pynone
  | str (s : String)
  | int (n : Int)
  | list (xs : List PyVal)
deriving Repr

mutual

/-- Decidable equality for PyVal. -/
def PyVal.beq : PyVal → PyVal → Bool
  | .pynone, .pynone => true
  | .str a, .str b => a = b
  | .int a, .int b => a = b
  | .list a, .list b => PyVal.beqList a b
  | _, _ => false

/-- Decidable equality for lists of PyVal. -/
def PyVal.beqList : List PyVal → List PyVal → Bool
  | [], [] => true
  | a :: as, b :: bs => PyVal.beq a b && PyVal.beqList as bs
  | _, _ => false

end

mutual

/-- Soundness of PyVal.beq. -/
theorem PyVal.beq_iff : ∀ a b : PyVal, PyVal.beq a b = true ↔ a = b
  | .pynone, .pynone => by simp [PyVal.beq]
  | .pynone, .str _ | .pynone, .int _ | .pynone, .list _ => by simp [PyVal.beq]
  | .str _, .pynone | .str _, .int _ | .str _, .list _ => by simp [PyVal.beq]
  | .int _, .pynone | .int _, .str _ | .int _, .list _ => by simp [PyVal.beq]
  | .list _, .pynone | .list _, .str _ | .list _, .int _ => by simp [PyVal.beq]
  | .str a, .str b => by simp [PyVal.beq]
  | .int a, .int b => by simp [PyVal.beq]
  | .list a, .list b => by
      simp only [PyVal.beq]
      constructor
      · intro h
        have := (PyVal.beqList_iff a b).1 h
        simp [this]
      · intro h
        cases h
        exact (PyVal.beqList_iff a a).2 rfl

/-- Soundness of PyVal.beqList. -/
theorem PyVal.beqList_iff : ∀ a b : List PyVal, PyVal.beqList a b = true ↔ a = b
  | [], [] => by simp [PyVal.beqList]
  | [], _ :: _ => by simp [PyVal.beqList]
  | _ :: _, [] => by simp [PyVal.beqList]
  | a :: as, b :: bs => by
      simp only [PyVal.beqList, Bool.and_eq_true]
      constructor
      · rintro ⟨h1, h2⟩
        have e1 := (PyVal.beq_iff a b).1 h1
        have e2 := (PyVal.beqList_iff as bs).1 h2
        simp [e1, e2]
      · intro h
        injection h with h1 h2
        exact ⟨(PyVal.beq_iff a b).2 h1, (PyVal.beqList_iff as bs).2 h2⟩

end

instance : DecidableEq PyVal := fun a b =>
  decidable_of_iff (PyVal.beq a b = true) (PyVal.beq_iff a b)

/-- Python truthiness for the modelled values. -/
def PyVal.truthy : PyVal → Bool
  | .pynone => false
  | .str s => s ≠ ""
  | .int n => n ≠ 0
  | .list xs => xs ≠ []

mutual

/-- Approximation of json.dumps on a PyVal. Escaping of special characters
inside strings is elided; no claim depends on the concrete encoding. -/
def PyVal.dumps : PyVal → String
  | .pynone => "null"
  | .str s => "\"" ++ s ++ "\""
  | .int n => toString n
  | .list xs => "[" ++ PyVal.dumpsList xs ++ "]"

/-- Helper for PyVal.dumps on lists. -/
def PyVal.dumpsList : List PyVal → String
  | [] => ""
  | [x] => PyVal.dumps x
  | x :: xs => PyVal.dumps x ++ ", " ++ PyVal.dumpsList xs

end

/-- Python f-string formatting of a value, as used inside error messages. -/
def PyVal.fstr : PyVal → String
  | .str s => s
  | .int n => toString n
  | .pynone => "None"
  | .list xs => PyVal.dumps (.list xs)

/-- Tool arguments: a Python dict from argument name to value. -/
abbrev ToolArgs := List (String × PyVal)

/-- Python dict.get with default None. -/
def argsGet (args : ToolArgs) (k : String) : PyVal :=
  match args.lookup k with
  | some v => v
  | none => .pynone

/-- Approximation of json.dumps on a tool-arguments dict. -/
def ToolArgs.dumps (args : ToolArgs) : String :=
  "\x7b" ++ String.intercalate ", "
    (args.map fun kv => "\"" ++ kv.1 ++ "\": " ++ kv.2.dumps) ++ "\x7d"

/-- One normalized content block of a model response: either a text block or a
tool invocation, as produced by the anthropic content array or by the openai
conversion performed at the top of the step executor loop. -/
inductive ContentBlock
  | text (s : String)
  | tool_use (id name : String) (input : ToolArgs)
deriving DecidableEq, Repr

/-- Name held by a content block; only tool_use blocks carry one (accessing it
on a text block would be an AttributeError in the source, and the embedded
call sites only reach it with tool_use blocks). -/
def ContentBlock.cname : ContentBlock → String
  | .text _ => ""
  | .tool_use _ n _ => n

/-- Input dict held by a content block; see ContentBlock.cname. -/
def ContentBlock.cinput : ContentBlock → ToolArgs
  | .text _ => []
  | .tool_use _ _ args => args

/-- Whether a content block is a tool invocation. -/
def ContentBlock.isToolUse : ContentBlock → Bool
  | .text _ => false
  | .tool_use _ _ _ => true

/-- Conversation entry, covering the shapes appended by both provider
dialects. -/
inductive Msg
  | user (content : String)
  | system (content : String)
  | assistantBlocks (content : List ContentBlock)
  | userToolResult (tool_use_id : String) (content : PyVal)
  | assistantToolCalls (id name arguments : String)
  | tool (tool_call_id : String) (content : PyVal)
deriving DecidableEq, Repr

/-- Task-scoped state, from the State TypedDict of plan_exec_agent.py. The
tools and status keys are absent from the dict literal built at task start and
are modelled with Option; the TypedDict declaration misspells initial_plan as
inital_plan but the running code only ever uses the initial_plan key, which is
the name kept here. tool_results maps a tool id to the pair of tool name and
raw result; past_steps holds (step, summary) pairs and past_results holds
(step, final_text) pairs. -/
structure State where
  input : String
  provider : ModelProvider
  current_plan : List String
  initial_plan : List String
  past_steps : List (String × String)
  past_results : List (String × List String)
  tool_results : List (String × String × PyVal)
  response : String
  langfuse_session_id : String
  user_id : String
  task_id : String
  tools : Option (List String)
  status : Option String
deriving DecidableEq, Repr

/-- Python dict assignment d[k] = (name, v): update in place if the key
exists, else append, preserving insertion order. -/
def dictSet (m : List (String × String × PyVal)) (k name : String) (v : PyVal) :
    List (String × String × PyVal) :=
  if m.any fun e => e.1 = k then
    m.map fun e => if e.1 = k then (k, name, v) else e
  else
    m ++ [(k, name, v)]

/-- Python dict lookup with membership semantics. -/
def dictGet (m : List (String × String × PyVal)) (k : String) :
    Option (String × PyVal) :=
  (m.find? fun e => e.1 = k).map (fun e => e.2)

/-- Authorization response of the Arcade backend. -/
structure AuthResponse where
  status : String
  url : String
deriving DecidableEq, Repr

/-- Embedded error of a tool output. -/
structure ToolOutputError where
  message : String
deriving DecidableEq, Repr

/-- Output part of an Arcade execute response. -/
structure ToolOutput where
  value : PyVal
  error : Option ToolOutputError
deriving DecidableEq, Repr

/-- Arcade execute response. -/
structure ExecuteToolResponse where
  success : Bool
  status : String
  output : Option ToolOutput
deriving DecidableEq, Repr

/-- Oracle for the Arcade tool backend. Each operation may raise, modelled by
the error side carrying the exception text. skip_cli_auth models the
SKIP_CLI_AUTH environment variable. -/
structure ArcadeEnv where
  authorize : String → String → Except String AuthResponse
  wait_for_completion : AuthResponse → Except String Unit
  execute : String → ToolArgs → String → Except String ExecuteToolResponse
  skip_cli_auth : Bool

/-- Embedding of ToolProcessor._create_tool_response. The source copies the
incoming messages list before appending, so the caller keeps its list intact;
in this pure embedding that is reflected by returning messages with exactly
two entries appended. -/
def _create_tool_response (tool_id : String) (content : ContentBlock)
    (assistant_message_content : List ContentBlock) (messages : List Msg)
    (result_content : PyVal) (provider : ModelProvider) : List Msg × PyVal :=
  match provider with
  | .anthropic =>
      (messages ++
        [Msg.assistantBlocks (assistant_message_content ++ [content]),
         Msg.userToolResult tool_id result_content],
       result_content)
  | .openai =>
      (messages ++
        [Msg.assistantToolCalls tool_id content.cname (ToolArgs.dumps content.cinput),
         Msg.tool tool_id result_content],
       result_content)

/-- Embedding of ToolProcessor._handle_reference_tool. The source indexes
tool_args with brackets, so a missing tool_id key is a KeyError; a referenced
id that is not a key of tool_results yields the error string. -/
def _handle_reference_tool (tool_id : String) (tool_args : ToolArgs)
    (content : ContentBlock) (assistant_message_content : List ContentBlock)
    (messages : List Msg) (state : State) (provider : ModelProvider) :
    Except RunError (List Msg × PyVal) :=
  match tool_args.lookup "tool_id" with
  | none => .error .keyError
  | some refVal =>
      let found : Option (String × PyVal) :=
        match refVal with
        | .str s => dictGet state.tool_results s
        | _ => none
      let result_content : PyVal :=
        match found with
        | some p => p.2
        | none => .str ("Error: No tool result found with ID \x27" ++ refVal.fstr ++ "\x27")
      .ok (_create_tool_response tool_id content assistant_message_content messages
            result_content provider)

/-- Embedding of ToolProcessor._handle_previous_step_tool. A falsy
step_number (absent, None, or 0) yields the invalid-step error; a truthy
non-integer reaches the comparison with 1 and raises TypeError exactly as the
source would, because that comparison sits outside the try block; otherwise
the 1-based index is resolved against past_results, with list results joined
by newlines. -/
def _handle_previous_step_tool (tool_id : String) (tool_args : ToolArgs)
    (content : ContentBlock) (assistant_message_content : List ContentBlock)
    (messages : List Msg) (state : State) (provider : ModelProvider) :
    Except RunError (List Msg × PyVal) :=
  let step_number := argsGet tool_args "step_number"
  if ¬ step_number.truthy then
    .ok (_create_tool_response tool_id content assistant_message_content messages
          (.str "Error: Invalid step number. Please provide a step number >= 1.") provider)
  else
    match step_number with
    | .int n =>
        if n < 1 then
          .ok (_create_tool_response tool_id content assistant_message_content messages
                (.str "Error: Invalid step number. Please provide a step number >= 1.") provider)
        else
          let result_content : PyVal :=
            match state.past_results[(n - 1).toNat]? with
            | some pr =>
                .str ("Step " ++ toString n ++ " (" ++ pr.1 ++ "):\n" ++
                      String.intercalate "\n" pr.2)
            | none =>
                .str ("Error: No raw result found for step " ++ toString n ++
                      ". Available steps: 1-" ++ toString state.past_results.length)
          .ok (_create_tool_response tool_id content assistant_message_content messages
                result_content provider)
    | _ => .error .typeError

/-- Embedding of ToolProcessor._handle_insufficient_context_tool. A falsy
reason (absent, None, or the empty string) yields the no-reason error string
rather than the STEP_FAILED marker. -/
def _handle_insufficient_context_tool (tool_id : String) (tool_args : ToolArgs)
    (content : ContentBlock) (assistant_message_content : List ContentBlock)
    (messages : List Msg) (provider : ModelProvider) :
    Except RunError (List Msg × PyVal) :=
  let reason := argsGet tool_args "reason"
  if ¬ reason.truthy then
    .ok (_create_tool_response tool_id content assistant_message_content messages
          (.str "Error: No reason provided for insufficient context") provider)
  else
    .ok (_create_tool_response tool_id content assistant_message_content messages
          (.str ("STEP_FAILED_INSUFFICIENT_CONTEXT: " ++ reason.fstr)) provider)

/-- Embedding of ToolProcessor._handle_standard_tool. The whole body sits in a
try/except that converts any backend exception into an error-string result, so
the handler is total; final_text is threaded explicitly because the source
mutates it in place. -/
def _handle_standard_tool (env : ArcadeEnv) (tool_name : String)
    (tool_args : ToolArgs) (tool_id : String) (content : ContentBlock)
    (assistant_message_content : List ContentBlock) (messages : List Msg)
    (final_text : List String) (user_id : String) (provider : ModelProvider) :
    List Msg × PyVal × List String :=
  let caught : String → List String → List Msg × PyVal × List String := fun e ft =>
    let error_message := "Error executing tool \x27" ++ tool_name ++ "\x27: " ++ e
    let p := _create_tool_response tool_id content assistant_message_content messages
              (.str error_message) provider
    (p.1, p.2, ft ++ [error_message])
  match env.authorize tool_name user_id with
  | .error e => caught e final_text
  | .ok auth =>
    if auth.status ≠ "completed" ∧ env.skip_cli_auth then
      let result_content := PyVal.str ("Unable to call " ++ tool_name ++
        " because it requires authorization. Please authorize it manually outside of this program.")
      let p := _create_tool_response tool_id content assistant_message_content messages
                result_content provider
      (p.1, p.2, final_text)
    else
      match (if auth.status ≠ "completed" then env.wait_for_completion auth else Except.ok ()) with
      | .error e => caught e final_text
      | .ok _ =>
        match env.execute tool_name tool_args user_id with
        | .error e => caught e final_text
        | .ok resp =>
          let ft := final_text ++
            ["[Executing tool " ++ tool_name ++ " with args " ++ tool_args.dumps ++
             " with id " ++ tool_id ++ "]"]
          if resp.success then
            match resp.output with
            | none => caught "Successful tool execution without output" ft
            | some output =>
              match output.error with
              | some err =>
                let p := _create_tool_response tool_id content assistant_message_content
                          messages (.str ("Error: " ++ err.message)) provider
                (p.1, p.2, ft)
              | none =>
                let result_content : PyVal :=
                  match output.value with
                  | .str s => .str s
                  | v => .str v.dumps
                let p := _create_tool_response tool_id content assistant_message_content
                          messages result_content provider
                (p.1, p.2, ft)
          else
            let p := _create_tool_response tool_id content assistant_message_content
                      messages (.str ("Tool execution failed with status: " ++ resp.status))
                      provider
            (p.1, p.2, ft)

/-- Embedding of ToolProcessor.process_tool_call: route a tool call to one of
the three meta-tool handlers or to the standard Arcade path. -/
def process_tool_call (env : ArcadeEnv) (tool_name : String) (tool_args : ToolArgs)
    (tool_id : String) (content : ContentBlock)
    (assistant_message_content : List ContentBlock) (messages : List Msg)
    (state : State) (final_text : List String) (user_id : String)
    (provider : ModelProvider) :
    Except RunError (List Msg × PyVal × List String) :=
  if tool_name = "reference_tool_output" then
    (_handle_reference_tool tool_id tool_args content assistant_message_content
      messages state provider).map fun p => (p.1, p.2, final_text)
  else if tool_name = "get_previous_step_result" then
    (_handle_previous_step_tool tool_id tool_args content assistant_message_content
      messages state provider).map fun p => (p.1, p.2, final_text)
  else if tool_name = "signal_insufficient_context" then
    (_handle_insufficient_context_tool tool_id tool_args content
      assistant_message_content messages provider).map fun p => (p.1, p.2, final_text)
  else
    .ok (_handle_standard_tool env tool_name tool_args tool_id content
          assistant_message_content messages final_text user_id provider)

/-- Environment threaded through the step executor: the Arcade backend oracle
and the user id used for authorization. -/
structure StepEnv where
  arcade : ArcadeEnv
  user_id : String

/-- Embedding of the tool-call handling inside
StepExecutor.process_input_with_agent_loop (the elif branch of the content
walk): invoke the dispatcher and then, unless the tool name is one of the two
excluded meta-tools and the result is truthy, record the result into
state.tool_results under the tool id. -/
def dispatch_and_record (env : ArcadeEnv) (provider : ModelProvider)
    (tool_name : String) (tool_args : ToolArgs) (tool_id : String)
    (content : ContentBlock) (assistant_message_content : List ContentBlock)
    (messages : List Msg) (final_text : List String) (state : State)
    (user_id : String) :
    Except RunError (List Msg × PyVal × List String × State) :=
  match process_tool_call env tool_name tool_args tool_id content
      assistant_message_content messages state final_text user_id provider with
  | .error e => .error e
  | .ok (updated_messages, result_content, ft) =>
      let state' :=
        if result_content.truthy ∧ tool_name ≠ "get_previous_step_result" ∧
            tool_name ≠ "reference_tool_output" then
          { state with tool_results := dictSet state.tool_results tool_id tool_name result_content }
        else state
      .ok (updated_messages, result_content, ft, state')

/-- Embedding of the for-loop over one response inside
StepExecutor.process_input_with_agent_loop: walk the content blocks in order,
appending text blocks to final_text and to the assistant message content; on
the first tool_use block dispatch it and stop (the break in the source), with
the returned flag playing the role of has_tool_calls. -/
def walkContents (env : StepEnv) (provider : ModelProvider) :
    List ContentBlock → List String → List ContentBlock → List Msg → State →
    Except RunError (List String × List Msg × State × Bool)
  | [], final_text, _amc, messages, state => .ok (final_text, messages, state, false)
  | ContentBlock.text s :: rest, final_text, amc, messages, state =>
      walkContents env provider rest (final_text ++ [s]) (amc ++ [ContentBlock.text s])
        messages state
  | ContentBlock.tool_use tid name args :: _rest, final_text, amc, messages, state =>
      match dispatch_and_record env.arcade provider name args tid
          (ContentBlock.tool_use tid name args) amc messages final_text state env.user_id with
      | .error e => .error e
      | .ok (messages', _result, ft', state') => .ok (ft', messages', state', true)

/-- Embedding of the while-loop of
StepExecutor.process_input_with_agent_loop. The scripted response stream
supplies, in order, the normalized contents of each model response: the head
is the response being walked, and a dispatch consumes the next element as the
follow-up model call. The loop ends when a response carries no tool call. -/
def agent_loop (env : StepEnv) (provider : ModelProvider) :
    List (List ContentBlock) → List Msg → List String → State →
    Except RunError (List String × State)
  | [], _messages, _final_text, _state => .error .noMoreResponses
  | r :: rest, messages, final_text, state =>
      match walkContents env provider r final_text [] messages state with
      | .error e => .error e
      | .ok (ft', messages', state', has_tool_calls) =>
          if has_tool_calls then agent_loop env provider rest messages' ft' state'
          else .ok (ft', state')

/-- Embedding of StepExecutor.process_input_with_agent_loop. When no state is
passed (the orchestrator summary call sites), evaluating the membership test
of the tools key on None raises TypeError before any model call is made; with
a state, the conversation starts from the single user message and the loop
runs. The available-tools value is only forwarded to the model oracle and does
not influence the embedded control flow. -/
def process_input_with_agent_loop (env : StepEnv) (provider : ModelProvider)
    (input_action : String) (responses : List (List ContentBlock))
    (state : Option State) : Except RunError (List String × State) :=
  match state with
  | none => .error .typeError
  | some st => agent_loop env provider responses [Msg.user input_action] [] st

/-- Sentinel-aware parameter of the openai SDK: notGiven models the NotGiven
sentinel that omits the parameter from the request, given carries an
explicitly passed value. -/
inductive SdkParam (α : Type)
  | notGiven
  | given (value : α)
deriving DecidableEq, Repr

/-- Python truthiness of an optional tool list (None and the empty list are
falsy). -/
def listTruthy : Option (List String) → Bool
  | none => false
  | some ts => ts ≠ []

/-- Keyword arguments of the anthropic messages.create call as assembled by
LLMMessageCreator._create_claude_message; the tools key is only present when
the tools argument is truthy, so none here models an absent key. -/
structure AnthropicApiParams where
  model : String
  max_tokens : Nat
  system : String
  messages : List Msg
  tools : Option (List String)
deriving DecidableEq, Repr

/-- Keyword arguments of the openai chat.completions.create call as assembled
by LLMMessageCreator._create_openai_message. The tools keyword is always
passed through with the given value (Python None included); only tool_choice
uses the NotGiven sentinel. -/
structure OpenAIApiParams where
  model : String
  messages : List Msg
  tools : SdkParam (Option (List String))
  tool_choice : SdkParam String
deriving DecidableEq, Repr

/-- Embedding of LLMMessageCreator._create_claude_message (the request
construction; the network call and tracing are outside the model). -/
def _create_claude_message_params (messages : List Msg)
    (available_tools : Option (List String)) (system_prompt : String)
    (model : Option String) : AnthropicApiParams :=
  { model := model.getD "claude-sonnet-4-20250514"
    max_tokens := 4096
    system := system_prompt
    messages := messages
    tools := if listTruthy available_tools then available_tools else none }

/-- Embedding of LLMMessageCreator._create_openai_message (the request
construction; the network call and tracing are outside the model). -/
def _create_openai_message_params (messages : List Msg)
    (available_tools : Option (List String)) (system_prompt : String)
    (model : Option String) : OpenAIApiParams :=
  { model := model.getD "gpt-4.1"
    messages := Msg.system system_prompt :: messages
    tools := SdkParam.given available_tools
    tool_choice := if listTruthy available_tools then SdkParam.given "auto" else SdkParam.notGiven }

/-- Provider-tagged request parameters produced by create_message. -/
inductive CreateMessageParams
  | claude (p : AnthropicApiParams)
  | openaiParams (p : OpenAIApiParams)
deriving DecidableEq, Repr

/-- Embedding of LLMMessageCreator.create_message: route to the provider
branch and return the request it would send. -/
def create_message_invocation (provider : ModelProvider) (messages : List Msg)
    (available_tools : Option (List String)) (system_prompt : String)
    (model : Option String) : CreateMessageParams :=
  match provider with
  | .anthropic => .claude (_create_claude_message_params messages available_tools system_prompt model)
  | .openai => .openaiParams (_create_openai_message_params messages available_tools system_prompt model)

/-- The tools parameter is omitted from the underlying model invocation:
absent from the anthropic keyword dict, or the NotGiven sentinel on the
openai call. -/
def toolsOmitted : CreateMessageParams → Bool
  | .claude p => p.tools = none
  | .openaiParams p => p.tools = SdkParam.notGiven

/-- The invocation applies no tool-choice coercion: the anthropic branch never
passes tool_choice, and the openai branch passes either NotGiven or the
non-coercive auto value. -/
def noToolChoiceCoercion : CreateMessageParams → Bool
  | .claude _ => true
  | .openaiParams p =>
      p.tool_choice = SdkParam.notGiven || p.tool_choice = SdkParam.given "auto"

/-- Replan decision, from the Act model of plan_exec_agent.py: either a
revised plan or a final response. -/
inductive Act
  | plan (steps : List String)
  | response (r : String)
deriving DecidableEq, Repr

/-- Oracle environment for the orchestrator. The model interactions of one
iteration k (1-based, matching the iteration counter of the source) are
scripted by index: the final_text the step executor returns, the tool_results
transformation its inner loop performs, the summarizer sentence, and the
replan decision. initialPlanSteps scripts plan extraction from the initial
planning call, availableTools the Arcade catalog, categorizeStatus the final
categorizer call, and stepEnv with summaryResponses parameterize the
state-less summary calls the orchestrator makes through the step executor. -/
structure OrchEnv where
  stepFinalText : Nat → List String
  stepToolResults : Nat → List (String × String × PyVal) → List (String × String × PyVal)
  stepSummary : Nat → String
  replanAct : Nat → Act
  initialPlanSteps : List String
  availableTools : List String
  categorizeStatus : State → String
  stepEnv : StepEnv
  summaryResponses : List (List ContentBlock)

/-- Embedding of PlanExecAgent.execute_step at iteration k: read the head of
the current plan (IndexError on an empty plan, which the loop guard rules
out), run the inner agent loop (scripted: final_text plus tool_results side
updates), append (step, final_text) to past_results, and return the
summarizer output for the step. -/
def execute_step (env : OrchEnv) (k : Nat) (state : State) :
    Except RunError (State × String) :=
  match state.current_plan with
  | [] => .error .indexError
  | step :: _ =>
      let final_text := env.stepFinalText k
      let st1 : State :=
        { state with
          tool_results := env.stepToolResults k state.tool_results
          past_results := state.past_results ++ [(step, final_text)] }
      .ok (st1, env.stepSummary k)

/-- One orchestrator iteration body up to the point where replan is invoked:
read the step at the head of current_plan, execute it (appending to
past_results inside execute_step), and append (step, summary) to past_steps.
The returned state is exactly the state the replan call observes. -/
def pre_replan_state (env : OrchEnv) (k : Nat) (state : State) :
    Except RunError State :=
  match state.current_plan with
  | [] => .error .indexError
  | step :: _ =>
      match execute_step env k state with
      | .error e => .error e
      | .ok (st1, summary) =>
          .ok { st1 with past_steps := st1.past_steps ++ [(step, summary)] }

/-- Numbered list of completed steps with their results, as interpolated into
the final and incomplete summary prompts (the indentation that the Python
triple-quoted literals carry is elided). -/
def steps_completed_block (past_steps : List (String × String)) : String :=
  String.join (past_steps.enum.map fun p =>
    toString (p.1 + 1) ++ ". " ++ p.2.1 ++ "\n   Result: " ++ p.2.2 ++ "\n\n")

/-- Numbered list of remaining plan steps for the incomplete summary prompt. -/
def numbered_plan_block (plan : List String) : String :=
  String.join (plan.enum.map fun p => toString (p.1 + 1) ++ ". " ++ p.2 ++ "\n")

/-- Prompt built by the empty-plan branch of execute_plan_until_completion. -/
def final_response_prompt (state : State) : String :=
  "## Objective:\n" ++ state.input ++ "\n\n## Steps completed:\n" ++
  steps_completed_block state.past_steps ++
  "Please provide a final summary of what was accomplished."

/-- Prompt built by the iteration-cap branch of
execute_plan_until_completion. -/
def incomplete_response_prompt (state : State) (iteration max_iterations : Nat) :
    String :=
  "## Objective:\n" ++ state.input ++ "\n\n## Steps completed (" ++
  toString iteration ++ "/" ++ toString max_iterations ++ ", plan not completed):\n" ++
  steps_completed_block state.past_steps ++
  "## Remaining steps (" ++ toString state.current_plan.length ++ " steps):\n" ++
  numbered_plan_block state.current_plan ++
  "\nPlease provide a summary of progress made and what remains to be done."

/-- Embedding of the while-loop of
PlanExecAgent.execute_plan_until_completion. The Python loop condition is
iteration < max_iterations and current_plan; the decreasing fuel argument
remaining equals max_iterations - iteration throughout, so fuel exhaustion is
exactly the first conjunct failing. Both summary branches call the step
executor without a state argument, so they inherit the TypeError that
process_input_with_agent_loop raises in that case; the .ok fallthrough keeps
the shape of the source (which would store the returned final_text list in
state.response) but is unreachable. -/
def while_loop (env : OrchEnv) (max_iterations : Nat) :
    Nat → Nat → State → Except RunError (Nat × State)
  | 0, iteration, state => .ok (iteration, state)
  | remaining + 1, iteration, state =>
    if state.current_plan = [] then .ok (iteration, state)
    else
      let k := iteration + 1
      match pre_replan_state env k state with
      | .error e => .error e
      | .ok st2 =>
        match env.replanAct k with
        | .response r => .ok (k, { st2 with response := r })
        | .plan steps =>
          let st3 := { st2 with current_plan := steps }
          if steps = [] then
            match process_input_with_agent_loop env.stepEnv state.provider
                (final_response_prompt st3) env.summaryResponses none with
            | .error e => .error e
            | .ok (ft, _st) => .ok (k, { st3 with response := String.intercalate "\n" ft })
          else
            while_loop env max_iterations remaining k st3

/-- Embedding of PlanExecAgent.execute_plan_until_completion: run the loop
from iteration 0, then, if the iteration counter reached the cap while
current_plan is still non-empty, build the incomplete-progress prompt and ask
the step executor for a summary without passing a state. -/
def execute_plan_until_completion (env : OrchEnv) (state : State)
    (max_iterations : Nat) : Except RunError State :=
  match while_loop env max_iterations max_iterations 0 state with
  | .error e => .error e
  | .ok (iteration, st) =>
    if max_iterations ≤ iteration ∧ st.current_plan ≠ [] then
      match process_input_with_agent_loop env.stepEnv st.provider
          (incomplete_response_prompt st iteration max_iterations)
          env.summaryResponses none with
      | .error e => .error e
      | .ok (ft, _st) => .ok { st with response := String.intercalate "\n" ft }
    else .ok st

/-- State dict literal built at the top of PlanExecAgent.execute_plan; the
tools and status keys are absent at this point. -/
def init_state (input_action : String) (provider : ModelProvider)
    (user_id task_id langfuse_session_id : String) : State :=
  { input := input_action
    provider := provider
    current_plan := []
    initial_plan := []
    past_steps := []
    past_results := []
    tool_results := []
    response := ""
    langfuse_session_id := langfuse_session_id
    user_id := user_id
    task_id := task_id
    tools := none
    status := none }

/-- Steps produced by PlanExecAgent.initial_plan: the scripted extraction
result, with the source fallback to the constant error plan when extraction
produced nothing. -/
def initial_plan_steps (env : OrchEnv) : List String :=
  if env.initialPlanSteps = [] then ["Error: Could not generate plan"] else env.initialPlanSteps

/-- State after the initial planning call inside execute_plan: initial_plan
populates state.tools from the backend catalog, and both plan fields receive
the extracted steps. -/
def after_initial_plan (env : OrchEnv) (state : State) : State :=
  let steps := initial_plan_steps env
  { state with
    tools := some env.availableTools
    initial_plan := steps
    current_plan := steps }

/-- Embedding of PlanExecAgent.execute_plan: initialize the state, generate
the initial plan, run the plan to completion, categorize the result, and
return the final response string. Telemetry publishing is a swallowed side
effect with no influence on the returned value and is not modelled. -/
def execute_plan (env : OrchEnv) (input_action : String)
    (provider : ModelProvider) (max_iterations : Nat)
    (user_id task_id langfuse_session_id : String) : Except RunError String :=
  let st0 := init_state input_action provider user_id task_id langfuse_session_id
  let st1 := after_initial_plan env st0
  match execute_plan_until_completion env st1 max_iterations with
  | .error e => .error e
  | .ok st =>
      let st2 := { st with status := some (env.categorizeStatus st) }
      .ok st2.response

/-- Spec-side reading of the one-tool-per-turn rule: the first tool-use entry
encountered in the response contents. -/
def firstToolUse (contents : List ContentBlock) : Option ContentBlock :=
  contents.find? ContentBlock.isToolUse

/-- Text fragments of a response in order. -/
def textsOf (contents : List ContentBlock) : List String :=
  contents.filterMap fun c =>
    match c with
    | .text s => some s
    | .tool_use _ _ _ => none

/-- A conversation entry carries the tool call with the given id: either an
anthropic assistant message whose content contains the tool_use block, or an
openai assistant message whose tool_calls array holds that id. -/
def carriesToolCall (m : Msg) (tool_id : String) : Prop :=
  match m with
  | .assistantBlocks content => ∃ name args, ContentBlock.tool_use tool_id name args ∈ content
  | .assistantToolCalls i _ _ => i = tool_id
  | _ => False

/-- A conversation entry is the tool-result message referencing the given
tool id, in either provider dialect. -/
def referencesToolResult (m : Msg) (tool_id : String) : Prop :=
  match m with
  | .userToolResult i _ => i = tool_id
  | .tool i _ => i = tool_id
  | _ => False

/-- Backend oracle used by the concrete executions below: authorization always
completed, execution unavailable. -/
def trivialArcadeEnv : ArcadeEnv :=
  { authorize := fun _ _ => .ok { status := "completed", url := "" }
    wait_for_completion := fun _ => .ok ()
    execute := fun _ _ _ => .error "network unavailable"
    skip_cli_auth := true }

/-- Step-executor environment used by the concrete executions below. -/
def trivialStepEnv : StepEnv :=
  { arcade := trivialArcadeEnv, user_id := "david_test" }

/-- Concrete mid-task state used by the concrete executions below: one
completed step and one recorded tool result. -/
def sampleState : State :=
  { input := "Fetch items and summarize them"
    provider := .anthropic
    current_plan := ["Summarize fetched items"]
    initial_plan := ["Fetch items", "Summarize fetched items"]
    past_steps := [("Fetch items", "SUCCEEDED: fetched 2 items.")]
    past_results := [("Fetch items", ["RESULT: fetched item-a and item-b", "item-a"])]
    tool_results := [("t1", ("list_items", PyVal.list [PyVal.str "item-a", PyVal.str "item-b"]))]
    response := ""
    langfuse_session_id := "session-1"
    user_id := "david_test"
    task_id := "task-1"
    tools := some ["Google_ListEmails"]
    status := none }

/-- Variant of sampleState with no recorded tool results. -/
def emptyToolResultsState : State :=
  { sampleState with tool_results := [] }

/-- Orchestrator oracle used by the concrete executions below: a one-step
plan whose every replan decision is the final response done. -/
def orchEnvBase : OrchEnv :=
  { stepFinalText := fun _ => ["Hello."]
    stepToolResults := fun _ tr => tr
    stepSummary := fun _ => "SUCCEEDED: produced greeting."
    replanAct := fun _ => Act.response "done"
    initialPlanSteps := ["Reply with a greeting"]
    availableTools := ["Google_SendEmail"]
    categorizeStatus := fun _ => "completed"
    stepEnv := trivialStepEnv
    summaryResponses := [] }

/-- Second component of a tool response is always the result content. -/
theorem _create_tool_response_snd (tool_id : String) (content : ContentBlock)
    (amc : List ContentBlock) (messages : List Msg) (rc : PyVal)
    (provider : ModelProvider) :
    (_create_tool_response tool_id content amc messages rc provider).2 = rc := by
  cases provider <;> rfl

/-- C6 counterexample: on the openai branch an absent tools parameter is not
omitted from the underlying model invocation; the tools keyword is passed
through explicitly. -/
theorem C6_openai_tools_not_omitted_cex :
    toolsOmitted (create_message_invocation .openai
      [Msg.user "What tools are available?"] none "You are a helpful assistant." none) = false := rfl

/-- C6 amended: for every create_message call with an empty or absent tools
parameter, the anthropic branch omits the tools key and never passes a tool
choice, while the openai branch forwards the tools keyword with the given
value (None or empty list included) but applies no tool-choice coercion, its
tool_choice being the NotGiven sentinel. -/
theorem C6_empty_tools_handling (messages : List Msg)
    (available_tools : Option (List String)) (system_prompt : String)
    (model : Option String) (h : listTruthy available_tools = false) :
    toolsOmitted (create_message_invocation .anthropic messages available_tools system_prompt model) = true ∧
    noToolChoiceCoercion (create_message_invocation .anthropic messages available_tools system_prompt model) = true ∧
    (∃ p, create_message_invocation .openai messages available_tools system_prompt model
        = CreateMessageParams.openaiParams p ∧
      p.tools = SdkParam.given available_tools ∧ p.tool_choice = SdkParam.notGiven) ∧
    noToolChoiceCoercion (create_message_invocation .openai messages available_tools system_prompt model) = true := by
  refine ⟨?_, rfl, ⟨_, rfl, rfl, ?_⟩, ?_⟩
  · simp [create_message_invocation, _create_claude_message_params, toolsOmitted, h]
  · simp [_create_openai_message_params, h]
  · simp [create_message_invocation, _create_openai_message_params, noToolChoiceCoercion, h]

/-- C6 witness: concrete instance of the amended statement with an absent
tools parameter. -/
theorem C6_empty_tools_handling_witness :
    toolsOmitted (create_message_invocation .anthropic [Msg.user "hi"] none "sys" none) = true ∧
    noToolChoiceCoercion (create_message_invocation .anthropic [Msg.user "hi"] none "sys" none) = true ∧
    (∃ p, create_message_invocation .openai [Msg.user "hi"] none "sys" none
        = CreateMessageParams.openaiParams p ∧
      p.tools = SdkParam.given none ∧ p.tool_choice = SdkParam.notGiven) ∧
    noToolChoiceCoercion (create_message_invocation .openai [Msg.user "hi"] none "sys" none) = true :=
  C6_empty_tools_handling [Msg.user "hi"] none "sys" none rfl

/-- C9 counterexample: dispatching signal_insufficient_context with the empty
string as reason returns the no-reason error string, not the STEP_FAILED
marker, because the empty string is falsy. -/
theorem C9_empty_reason_cex :
    _handle_insufficient_context_tool "toolu_9" [("reason", PyVal.str "")]
        (ContentBlock.tool_use "toolu_9" "signal_insufficient_context" [("reason", PyVal.str "")])
        [] [] .anthropic
      = .ok ([Msg.assistantBlocks
                [ContentBlock.tool_use "toolu_9" "signal_insufficient_context" [("reason", PyVal.str "")]],
              Msg.userToolResult "toolu_9" (PyVal.str "Error: No reason provided for insufficient context")],
             PyVal.str "Error: No reason provided for insufficient context") ∧
    "Error: No reason provided for insufficient context" ≠ "STEP_FAILED_INSUFFICIENT_CONTEXT: " :=
  ⟨rfl, by decide⟩

/-- C9 amended: for every non-empty string reason, dispatching
signal_insufficient_context returns the tool result string
STEP_FAILED_INSUFFICIENT_CONTEXT followed by the reason. -/
theorem C9_nonempty_reason (tool_id : String) (args : ToolArgs) (reason : String)
    (blk : ContentBlock) (amc : List ContentBlock) (msgs : List Msg)
    (provider : ModelProvider)
    (hargs : argsGet args "reason" = PyVal.str reason) (h : reason ≠ "") :
    _handle_insufficient_context_tool tool_id args blk amc msgs provider
      = .ok (_create_tool_response tool_id blk amc msgs
              (.str ("STEP_FAILED_INSUFFICIENT_CONTEXT: " ++ reason)) provider) := by
  have ht : PyVal.truthy (PyVal.str reason) = true := by simp [PyVal.truthy, h]
  simp [_handle_insufficient_context_tool, hargs, ht, PyVal.fstr]

/-- C9 witness: concrete instance of the amended statement. -/
theorem C9_nonempty_reason_witness :
    _handle_insufficient_context_tool "toolu_9" [("reason", PyVal.str "no email identified")]
        (ContentBlock.tool_use "toolu_9" "signal_insufficient_context"
          [("reason", PyVal.str "no email identified")]) [] [] .anthropic
      = .ok (_create_tool_response "toolu_9"
              (ContentBlock.tool_use "toolu_9" "signal_insufficient_context"
                [("reason", PyVal.str "no email identified")]) [] []
              (.str ("STEP_FAILED_INSUFFICIENT_CONTEXT: " ++ "no email identified")) .anthropic) :=
  C9_nonempty_reason "toolu_9" [("reason", PyVal.str "no email identified")]
    "no email identified"
    (ContentBlock.tool_use "toolu_9" "signal_insufficient_context"
      [("reason", PyVal.str "no email identified")]) [] [] .anthropic rfl (by decide)

/-- C3: a signal_insufficient_context call dispatched during a step does
create an entry in state.tool_results, because the recording guard in the
step executor excludes only get_previous_step_result and
reference_tool_output. Starting from a state with no recorded tool results,
processing the call leaves an entry keyed by the call id. -/
theorem C3_signal_insufficient_context_recorded :
    emptyToolResultsState.tool_results = [] ∧
    walkContents trivialStepEnv .anthropic
        [ContentBlock.tool_use "toolu_1" "signal_insufficient_context"
          [("reason", PyVal.str "no email identified")]] [] [] [] emptyToolResultsState
      = .ok ([],
             [Msg.assistantBlocks
                [ContentBlock.tool_use "toolu_1" "signal_insufficient_context"
                  [("reason", PyVal.str "no email identified")]],
              Msg.userToolResult "toolu_1"
                (PyVal.str "STEP_FAILED_INSUFFICIENT_CONTEXT: no email identified")],
             { emptyToolResultsState with
                tool_results := [("toolu_1", "signal_insufficient_context",
                  PyVal.str "STEP_FAILED_INSUFFICIENT_CONTEXT: no email identified")] },
             true) :=
  ⟨rfl, rfl⟩

/-- C7: dispatching reference_tool_output with a tool_id argument returns the
stored raw result verbatim when the id is a key of tool_results, and the
error string otherwise; in both cases the state comes back unchanged because
the recording guard excludes reference_tool_output. -/
theorem C7_reference_tool_dispatch (env : ArcadeEnv) (provider : ModelProvider)
    (tool_id refId : String) (args : ToolArgs) (amc : List ContentBlock)
    (msgs : List Msg) (ft : List String) (st : State) (uid : String)
    (hargs : args.lookup "tool_id" = some (PyVal.str refId)) :
    (∀ name stored, dictGet st.tool_results refId = some (name, stored) →
      dispatch_and_record env provider "reference_tool_output" args tool_id
          (ContentBlock.tool_use tool_id "reference_tool_output" args) amc msgs ft st uid
        = .ok ((_create_tool_response tool_id
                 (ContentBlock.tool_use tool_id "reference_tool_output" args)
                 amc msgs stored provider).1, stored, ft, st)) ∧
    (dictGet st.tool_results refId = none →
      dispatch_and_record env provider "reference_tool_output" args tool_id
          (ContentBlock.tool_use tool_id "reference_tool_output" args) amc msgs ft st uid
        = .ok ((_create_tool_response tool_id
                 (ContentBlock.tool_use tool_id "reference_tool_output" args)
                 amc msgs (.str ("Error: No tool result found with ID \x27" ++ refId ++ "\x27")) provider).1,
               .str ("Error: No tool result found with ID \x27" ++ refId ++ "\x27"), ft, st)) := by
  constructor
  · intro name stored hfound
    simp [dispatch_and_record, process_tool_call, _handle_reference_tool, hargs, hfound,
      Except.map, _create_tool_response_snd, PyVal.fstr]
  · intro hnone
    simp [dispatch_and_record, process_tool_call, _handle_reference_tool, hargs, hnone,
      Except.map, _create_tool_response_snd, PyVal.fstr]

/-- C7 witness: concrete lookups in sampleState, one hit and the state comes
back untouched. -/
theorem C7_reference_tool_dispatch_witness :
    dispatch_and_record trivialArcadeEnv .anthropic "reference_tool_output"
        [("tool_id", PyVal.str "t1")] "toolu_2"
        (ContentBlock.tool_use "toolu_2" "reference_tool_output" [("tool_id", PyVal.str "t1")])
        [] [] [] sampleState "david_test"
      = .ok ((_create_tool_response "toolu_2"
               (ContentBlock.tool_use "toolu_2" "reference_tool_output" [("tool_id", PyVal.str "t1")])
               [] [] (PyVal.list [PyVal.str "item-a", PyVal.str "item-b"]) .anthropic).1,
             PyVal.list [PyVal.str "item-a", PyVal.str "item-b"], [], sampleState) :=
  (C7_reference_tool_dispatch trivialArcadeEnv .anthropic "toolu_2" "t1"
      [("tool_id", PyVal.str "t1")] [] [] [] sampleState "david_test" rfl).1
    "list_items" (PyVal.list [PyVal.str "item-a", PyVal.str "item-b"]) rfl

/-- C8: dispatching get_previous_step_result with an integer step_number
returns the formatted step result for an in-range 1-based index (list
results joined by newlines), and an error string rather than an exception for
step_number equal to 0 or greater than the number of past results. -/
theorem C8_previous_step_dispatch (env : ArcadeEnv) (provider : ModelProvider)
    (tool_id : String) (n : Int) (args : ToolArgs) (amc : List ContentBlock)
    (msgs : List Msg) (ft : List String) (st : State) (uid : String)
    (hargs : argsGet args "step_number" = PyVal.int n) :
    (∀ step_name raw, 1 ≤ n → st.past_results[(n - 1).toNat]? = some (step_name, raw) →
      dispatch_and_record env provider "get_previous_step_result" args tool_id
          (ContentBlock.tool_use tool_id "get_previous_step_result" args) amc msgs ft st uid
        = .ok ((_create_tool_response tool_id
                 (ContentBlock.tool_use tool_id "get_previous_step_result" args) amc msgs
                 (.str ("Step " ++ toString n ++ " (" ++ step_name ++ "):\n" ++
                        String.intercalate "\n" raw)) provider).1,
               .str ("Step " ++ toString n ++ " (" ++ step_name ++ "):\n" ++
                     String.intercalate "\n" raw), ft, st)) ∧
    (n = 0 →
      dispatch_and_record env provider "get_previous_step_result" args tool_id
          (ContentBlock.tool_use tool_id "get_previous_step_result" args) amc msgs ft st uid
        = .ok ((_create_tool_response tool_id
                 (ContentBlock.tool_use tool_id "get_previous_step_result" args) amc msgs
                 (.str "Error: Invalid step number. Please provide a step number >= 1.") provider).1,
               .str "Error: Invalid step number. Please provide a step number >= 1.", ft, st)) ∧
    ((st.past_results.length : Int) < n →
      dispatch_and_record env provider "get_previous_step_result" args tool_id
          (ContentBlock.tool_use tool_id "get_previous_step_result" args) amc msgs ft st uid
        = .ok ((_create_tool_response tool_id
                 (ContentBlock.tool_use tool_id "get_previous_step_result" args) amc msgs
                 (.str ("Error: No raw result found for step " ++ toString n ++
                        ". Available steps: 1-" ++ toString st.past_results.length)) provider).1,
               .str ("Error: No raw result found for step " ++ toString n ++
                     ". Available steps: 1-" ++ toString st.past_results.length), ft, st)) := by
  refine ⟨?_, ?_, ?_⟩
  · intro step_name raw h1 hidx
    have ht : PyVal.truthy (PyVal.int n) = true := by simp [PyVal.truthy]; omega
    have hlt : ¬ n < 1 := by omega
    have hidx2 : st.past_results[n.toNat - 1]? = some (step_name, raw) := by
      rw [show n.toNat - 1 = (n - 1).toNat by omega]
      exact hidx
    simp [dispatch_and_record, process_tool_call, _handle_previous_step_tool, hargs, ht,
      hlt, hidx, hidx2, Except.map, _create_tool_response_snd]
  · intro h0
    subst h0
    simp [dispatch_and_record, process_tool_call, _handle_previous_step_tool, hargs,
      PyVal.truthy, Except.map, _create_tool_response_snd]
  · intro hgt
    have h1 : 1 ≤ n := by
      have := Int.ofNat_nonneg st.past_results.length
      omega
    have ht : PyVal.truthy (PyVal.int n) = true := by simp [PyVal.truthy]; omega
    have hlt : ¬ n < 1 := by omega
    have hidx : st.past_results[(n - 1).toNat]? = none := by
      apply List.getElem?_eq_none
      omega
    have hidx2 : st.past_results[n.toNat - 1]? = none := by
      rw [show n.toNat - 1 = (n - 1).toNat by omega]
      exact hidx
    simp [dispatch_and_record, process_tool_call, _handle_previous_step_tool, hargs, ht,
      hlt, hidx, hidx2, Except.map, _create_tool_response_snd]

/-- C8 witness: concrete in-range lookup against sampleState. -/
theorem C8_previous_step_dispatch_witness :
    dispatch_and_record trivialArcadeEnv .anthropic "get_previous_step_result"
        [("step_number", PyVal.int 1)] "toolu_3"
        (ContentBlock.tool_use "toolu_3" "get_previous_step_result" [("step_number", PyVal.int 1)])
        [] [] [] sampleState "david_test"
      = .ok ((_create_tool_response "toolu_3"
               (ContentBlock.tool_use "toolu_3" "get_previous_step_result" [("step_number", PyVal.int 1)])
               [] []
               (.str ("Step " ++ toString (1 : Int) ++ " (" ++ "Fetch items" ++ "):\n" ++
                      String.intercalate "\n" ["RESULT: fetched item-a and item-b", "item-a"])) .anthropic).1,
             .str ("Step " ++ toString (1 : Int) ++ " (" ++ "Fetch items" ++ "):\n" ++
                   String.intercalate "\n" ["RESULT: fetched item-a and item-b", "item-a"]),
             [], sampleState) :=
  ((C8_previous_step_dispatch trivialArcadeEnv .anthropic "toolu_3" 1
      [("step_number", PyVal.int 1)] [] [] [] sampleState "david_test" rfl).1
    "Fetch items" ["RESULT: fetched item-a and item-b", "item-a"] (by omega) rfl)

/-- A tool response always consists of the caller conversation with exactly
one assistant message carrying the tool call and one tool-result message
referencing the same id appended, in that order, for both provider
dialects. -/
theorem _create_tool_response_append (tool_id name : String) (args : ToolArgs)
    (amc : List ContentBlock) (msgs : List Msg) (rc : PyVal)
    (provider : ModelProvider) :
    ∃ a b, (_create_tool_response tool_id (ContentBlock.tool_use tool_id name args)
              amc msgs rc provider).1 = msgs ++ [a, b] ∧
      carriesToolCall a tool_id ∧ referencesToolResult b tool_id := by
  cases provider
  · refine ⟨Msg.assistantBlocks (amc ++ [ContentBlock.tool_use tool_id name args]),
      Msg.userToolResult tool_id rc, rfl, ?_, ?_⟩
    · exact ⟨name, args, by simp⟩
    · rfl
  · exact ⟨Msg.assistantToolCalls tool_id name (ToolArgs.dumps args), Msg.tool tool_id rc,
      rfl, rfl, rfl⟩

/-- Every successful reference_tool_output dispatch is a tool response built
by _create_tool_response. -/
theorem _handle_reference_tool_shape (tool_id : String) (args : ToolArgs)
    (blk : ContentBlock) (amc : List ContentBlock) (msgs : List Msg) (st : State)
    (provider : ModelProvider) (p : List Msg × PyVal)
    (h : _handle_reference_tool tool_id args blk amc msgs st provider = .ok p) :
    ∃ rc, p = _create_tool_response tool_id blk amc msgs rc provider := by
  simp only [_handle_reference_tool] at h
  cases hl : args.lookup "tool_id" with
  | none => rw [hl] at h; cases h
  | some v =>
      rw [hl] at h
      injection h with h2
      exact ⟨_, h2.symm⟩

/-- Every successful get_previous_step_result dispatch is a tool response
built by _create_tool_response. -/
theorem _handle_previous_step_tool_shape (tool_id : String) (args : ToolArgs)
    (blk : ContentBlock) (amc : List ContentBlock) (msgs : List Msg) (st : State)
    (provider : ModelProvider) (p : List Msg × PyVal)
    (h : _handle_previous_step_tool tool_id args blk amc msgs st provider = .ok p) :
    ∃ rc, p = _create_tool_response tool_id blk amc msgs rc provider := by
  simp only [_handle_previous_step_tool] at h
  split at h
  · injection h with h2; exact ⟨_, h2.symm⟩
  · split at h
    · split at h
      · injection h with h2; exact ⟨_, h2.symm⟩
      · injection h with h2; exact ⟨_, h2.symm⟩
    · cases h

/-- Every signal_insufficient_context dispatch is a tool response built by
_create_tool_response. -/
theorem _handle_insufficient_context_tool_shape (tool_id : String) (args : ToolArgs)
    (blk : ContentBlock) (amc : List ContentBlock) (msgs : List Msg)
    (provider : ModelProvider) (p : List Msg × PyVal)
    (h : _handle_insufficient_context_tool tool_id args blk amc msgs provider = .ok p) :
    ∃ rc, p = _create_tool_response tool_id blk amc msgs rc provider := by
  simp only [_handle_insufficient_context_tool] at h
  split at h
  · injection h with h2; exact ⟨_, h2.symm⟩
  · injection h with h2; exact ⟨_, h2.symm⟩

/-- Every standard-tool dispatch is a tool response built by
_create_tool_response, with some final_text extension. -/
theorem _handle_standard_tool_shape (env : ArcadeEnv) (tool_name : String)
    (args : ToolArgs) (tool_id : String) (blk : ContentBlock)
    (amc : List ContentBlock) (msgs : List Msg) (ft : List String) (uid : String)
    (provider : ModelProvider) :
    ∃ rc ftr, _handle_standard_tool env tool_name args tool_id blk amc msgs ft uid provider
      = ((_create_tool_response tool_id blk amc msgs rc provider).1,
         (_create_tool_response tool_id blk amc msgs rc provider).2, ftr) := by
  unfold _handle_standard_tool
  repeat first | exact ⟨_, _, rfl⟩ | split

/-- C10: for every tool call processed by the dispatcher, the returned
conversation equals the incoming messages with exactly two entries appended
in order: an assistant message carrying the tool call, then the tool-result
message referencing the same tool id. The source copies the incoming list
before appending, so the caller conversation object is never mutated and its
entries are preserved in order, which the prefix equality expresses. -/
theorem C10_dispatcher_appends_exactly_two (env : ArcadeEnv)
    (provider : ModelProvider) (tool_name : String) (args : ToolArgs)
    (tool_id : String) (amc : List ContentBlock) (msgs : List Msg) (st : State)
    (ft : List String) (uid : String) (msgs2 : List Msg) (res : PyVal)
    (ft2 : List String)
    (h : process_tool_call env tool_name args tool_id
          (ContentBlock.tool_use tool_id tool_name args) amc msgs st ft uid provider
         = .ok (msgs2, res, ft2)) :
    ∃ a b, msgs2 = msgs ++ [a, b] ∧ carriesToolCall a tool_id ∧
      referencesToolResult b tool_id := by
  unfold process_tool_call at h
  by_cases h1 : tool_name = "reference_tool_output"
  · rw [if_pos h1] at h
    cases hh : _handle_reference_tool tool_id args
        (ContentBlock.tool_use tool_id tool_name args) amc msgs st provider with
    | error e => rw [hh] at h; cases h
    | ok p =>
        rw [hh] at h
        simp only [Except.map] at h
        injection h with h3
        obtain ⟨e1, e2, e3⟩ : p.1 = msgs2 ∧ p.2 = res ∧ ft = ft2 := by
          simpa using h3
        obtain ⟨rc, hp⟩ := _handle_reference_tool_shape tool_id args _ amc msgs st provider p hh
        obtain ⟨a, b, he, hc, hr⟩ := _create_tool_response_append tool_id tool_name args amc msgs rc provider
        refine ⟨a, b, ?_, hc, hr⟩
        rw [← e1, hp]
        exact he
  · rw [if_neg h1] at h
    by_cases h2 : tool_name = "get_previous_step_result"
    · rw [if_pos h2] at h
      cases hh : _handle_previous_step_tool tool_id args
          (ContentBlock.tool_use tool_id tool_name args) amc msgs st provider with
      | error e => rw [hh] at h; cases h
      | ok p =>
          rw [hh] at h
          simp only [Except.map] at h
          injection h with h3
          obtain ⟨e1, e2, e3⟩ : p.1 = msgs2 ∧ p.2 = res ∧ ft = ft2 := by
            simpa using h3
          obtain ⟨rc, hp⟩ := _handle_previous_step_tool_shape tool_id args _ amc msgs st provider p hh
          obtain ⟨a, b, he, hc, hr⟩ := _create_tool_response_append tool_id tool_name args amc msgs rc provider
          refine ⟨a, b, ?_, hc, hr⟩
          rw [← e1, hp]
          exact he
    · rw [if_neg h2] at h
      by_cases h3 : tool_name = "signal_insufficient_context"
      · rw [if_pos h3] at h
        cases hh : _handle_insufficient_context_tool tool_id args
            (ContentBlock.tool_use tool_id tool_name args) amc msgs provider with
        | error e => rw [hh] at h; cases h
        | ok p =>
            rw [hh] at h
            simp only [Except.map] at h
            injection h with h4
            obtain ⟨e1, e2, e3⟩ : p.1 = msgs2 ∧ p.2 = res ∧ ft = ft2 := by
              simpa using h4
            obtain ⟨rc, hp⟩ := _handle_insufficient_context_tool_shape tool_id args _ amc msgs provider p hh
            obtain ⟨a, b, he, hc, hr⟩ := _create_tool_response_append tool_id tool_name args amc msgs rc provider
            refine ⟨a, b, ?_, hc, hr⟩
            rw [← e1, hp]
            exact he
      · rw [if_neg h3] at h
        obtain ⟨rc, ftr, hs⟩ := _handle_standard_tool_shape env tool_name args tool_id
          (ContentBlock.tool_use tool_id tool_name args) amc msgs ft uid provider
        rw [hs] at h
        injection h with h4
        obtain ⟨e1, e2, e3⟩ :
            (_create_tool_response tool_id (ContentBlock.tool_use tool_id tool_name args)
              amc msgs rc provider).1 = msgs2 ∧
            (_create_tool_response tool_id (ContentBlock.tool_use tool_id tool_name args)
              amc msgs rc provider).2 = res ∧ ftr = ft2 := by
          simpa using h4
        obtain ⟨a, b, he, hc, hr⟩ := _create_tool_response_append tool_id tool_name args amc msgs rc provider
        refine ⟨a, b, ?_, hc, hr⟩
        rw [← e1]
        exact he

/-- C10 witness: concrete dispatch of a meta-tool call on an empty
conversation. -/
theorem C10_dispatcher_appends_exactly_two_witness :
    ∃ a b,
      [Msg.assistantBlocks
         [ContentBlock.tool_use "toolu_4" "signal_insufficient_context" [("reason", PyVal.str "x")]],
       Msg.userToolResult "toolu_4" (PyVal.str "STEP_FAILED_INSUFFICIENT_CONTEXT: x")]
        = ([] : List Msg) ++ [a, b] ∧ carriesToolCall a "toolu_4" ∧
        referencesToolResult b "toolu_4" :=
  C10_dispatcher_appends_exactly_two trivialArcadeEnv .anthropic
    "signal_insufficient_context" [("reason", PyVal.str "x")] "toolu_4" [] [] sampleState
    [] "david_test"
    [Msg.assistantBlocks
       [ContentBlock.tool_use "toolu_4" "signal_insufficient_context" [("reason", PyVal.str "x")]],
     Msg.userToolResult "toolu_4" (PyVal.str "STEP_FAILED_INSUFFICIENT_CONTEXT: x")]
    (PyVal.str "STEP_FAILED_INSUFFICIENT_CONTEXT: x") [] rfl

/-- Walking a response with no tool-use block appends its text fragments in
order and reports no tool calls. -/
theorem walkContents_no_tool (env : StepEnv) (provider : ModelProvider) :
    ∀ (contents : List ContentBlock) (ft : List String) (amc : List ContentBlock)
      (msgs : List Msg) (st : State),
      (∀ c ∈ contents, c.isToolUse = false) →
      walkContents env provider contents ft amc msgs st
        = .ok (ft ++ textsOf contents, msgs, st, false)
  | [], ft, amc, msgs, st, h => by simp [walkContents, textsOf]
  | ContentBlock.text s :: rest, ft, amc, msgs, st, h => by
      have ih := walkContents_no_tool env provider rest (ft ++ [s])
        (amc ++ [ContentBlock.text s]) msgs st (fun c hc => h c (by simp [hc]))
      simp [walkContents, ih, textsOf]
  | ContentBlock.tool_use tid nm a :: rest, ft, amc, msgs, st, h => by
      have := h (ContentBlock.tool_use tid nm a) (by simp)
      simp [ContentBlock.isToolUse] at this

/-- Content entries after the first tool-use block have no influence on the
walk: processing stops at the dispatch. -/
theorem walkContents_stops_at_first (env : StepEnv) (provider : ModelProvider) :
    ∀ (before : List ContentBlock), (∀ c ∈ before, c.isToolUse = false) →
    ∀ (tid name : String) (args : ToolArgs) (after : List ContentBlock)
      (ft : List String) (amc : List ContentBlock) (msgs : List Msg) (st : State),
      walkContents env provider (before ++ ContentBlock.tool_use tid name args :: after)
          ft amc msgs st
        = walkContents env provider (before ++ [ContentBlock.tool_use tid name args])
          ft amc msgs st
  | [], h, tid, name, args, after, ft, amc, msgs, st => rfl
  | ContentBlock.text s :: before, h, tid, name, args, after, ft, amc, msgs, st => by
      simp only [List.cons_append, walkContents]
      exact walkContents_stops_at_first env provider before
        (fun c hc => h c (by simp [hc])) tid name args after (ft ++ [s])
        (amc ++ [ContentBlock.text s]) msgs st
  | ContentBlock.tool_use tid2 nm2 a2 :: before, h, tid, name, args, after, ft, amc, msgs, st => by
      have := h (ContentBlock.tool_use tid2 nm2 a2) (by simp)
      simp [ContentBlock.isToolUse] at this

/-- The first tool-use entry of a response whose prefix is tool-free. -/
theorem firstToolUse_at :
    ∀ (before : List ContentBlock), (∀ c ∈ before, c.isToolUse = false) →
    ∀ (tu : ContentBlock), tu.isToolUse = true → ∀ (after : List ContentBlock),
      firstToolUse (before ++ tu :: after) = some tu
  | [], h, tu, ht, after => by simp [firstToolUse, List.find?, ht]
  | c :: before, h, tu, ht, after => by
      have hc := h c (by simp)
      simp only [List.cons_append, firstToolUse, List.find?, hc]
      exact firstToolUse_at before (fun x hx => h x (by simp [hx])) tu ht after

/-- The has_tool_calls flag returned by a successful walk is exactly whether
the response contents contain a tool-use block. -/
theorem walkContents_flag (env : StepEnv) (provider : ModelProvider) :
    ∀ (contents : List ContentBlock) (ft : List String) (amc : List ContentBlock)
      (msgs : List Msg) (st : State) (out : List String × List Msg × State × Bool),
      walkContents env provider contents ft amc msgs st = .ok out →
      out.2.2.2 = contents.any ContentBlock.isToolUse
  | [], ft, amc, msgs, st, out, h => by
      simp [walkContents] at h
      simp [← h]
  | ContentBlock.text s :: rest, ft, amc, msgs, st, out, h => by
      have := walkContents_flag env provider rest (ft ++ [s])
        (amc ++ [ContentBlock.text s]) msgs st out (by simpa [walkContents] using h)
      simpa [ContentBlock.isToolUse] using this
  | ContentBlock.tool_use tid nm a :: rest, ft, amc, msgs, st, out, h => by
      simp only [walkContents] at h
      cases hd : dispatch_and_record env.arcade provider nm a tid
          (ContentBlock.tool_use tid nm a) amc msgs ft st env.user_id with
      | error e => rw [hd] at h; cases h
      | ok q =>
          rw [hd] at h
          injection h with h2
          simp [← h2, ContentBlock.isToolUse]

/-- C5: in every inner-loop iteration at most one tool call per model
response is dispatched, namely the first tool-use entry of the response
contents, with everything after it left unprocessed, and the loop terminates
exactly when a response contains zero tool calls. The first conjunct shows
the walk ignores all entries after the first tool-use block and that this
block is the first tool-use entry; the second matches the has_tool_calls
flag with the presence of a tool-use block; the third and fourth show the
loop returns at a tool-free response and otherwise continues with the next
scripted response. -/
theorem C5_one_tool_per_turn (env : StepEnv) (provider : ModelProvider) :
    (∀ (before : List ContentBlock) (tid name : String) (args : ToolArgs)
       (after : List ContentBlock) (ft : List String) (amc : List ContentBlock)
       (msgs : List Msg) (st : State),
       (∀ c ∈ before, c.isToolUse = false) →
       walkContents env provider (before ++ ContentBlock.tool_use tid name args :: after)
           ft amc msgs st
         = walkContents env provider (before ++ [ContentBlock.tool_use tid name args])
           ft amc msgs st ∧
       firstToolUse (before ++ ContentBlock.tool_use tid name args :: after)
         = some (ContentBlock.tool_use tid name args)) ∧
    (∀ (contents : List ContentBlock) (ft : List String) (amc : List ContentBlock)
       (msgs : List Msg) (st : State) (out : List String × List Msg × State × Bool),
       walkContents env provider contents ft amc msgs st = .ok out →
       out.2.2.2 = contents.any ContentBlock.isToolUse) ∧
    (∀ (r : List ContentBlock) (rest : List (List ContentBlock)) (msgs : List Msg)
       (ft : List String) (st : State),
       (∀ c ∈ r, c.isToolUse = false) →
       agent_loop env provider (r :: rest) msgs ft st = .ok (ft ++ textsOf r, st)) ∧
    (∀ (r : List ContentBlock) (rest : List (List ContentBlock)) (msgs : List Msg)
       (ft : List String) (st : State) (ftr : List String) (msr : List Msg) (str : State),
       walkContents env provider r ft [] msgs st = .ok (ftr, msr, str, true) →
       agent_loop env provider (r :: rest) msgs ft st
         = agent_loop env provider rest msr ftr str) := by
  refine ⟨?_, walkContents_flag env provider, ?_, ?_⟩
  · intro before tid name args after ft amc msgs st hb
    exact ⟨walkContents_stops_at_first env provider before hb tid name args after ft amc msgs st,
      firstToolUse_at before hb (ContentBlock.tool_use tid name args) rfl after⟩
  · intro r rest msgs ft st hr
    simp [agent_loop, walkContents_no_tool env provider r ft [] msgs st hr]
  · intro r rest msgs ft st ftr msr str hw
    simp [agent_loop, hw]

/-- C5 witness: a two-block response with a trailing text block after the
tool call, and a tool-free response terminating the loop. -/
theorem C5_one_tool_per_turn_witness :
    walkContents trivialStepEnv .anthropic
        [ContentBlock.text "a",
         ContentBlock.tool_use "toolu_5" "signal_insufficient_context" [("reason", PyVal.str "x")],
         ContentBlock.text "b"] [] [] [] sampleState
      = walkContents trivialStepEnv .anthropic
        [ContentBlock.text "a",
         ContentBlock.tool_use "toolu_5" "signal_insufficient_context" [("reason", PyVal.str "x")]]
        [] [] [] sampleState ∧
    firstToolUse
        [ContentBlock.text "a",
         ContentBlock.tool_use "toolu_5" "signal_insufficient_context" [("reason", PyVal.str "x")],
         ContentBlock.text "b"]
      = some (ContentBlock.tool_use "toolu_5" "signal_insufficient_context" [("reason", PyVal.str "x")]) :=
  (C5_one_tool_per_turn trivialStepEnv .anthropic).1 [ContentBlock.text "a"]
    "toolu_5" "signal_insufficient_context" [("reason", PyVal.str "x")]
    [ContentBlock.text "b"] [] [] [] sampleState
    (by intro c hc; simp at hc; subst hc; rfl)

/-- The state handed to the replan call: past_results and past_steps each
gain exactly the entry for the step at the head of current_plan. -/
theorem pre_replan_state_eq (env : OrchEnv) (k : Nat) (state : State)
    (step : String) (rest : List String)
    (hplan : state.current_plan = step :: rest) :
    pre_replan_state env k state = .ok
      { state with
        tool_results := env.stepToolResults k state.tool_results
        past_results := state.past_results ++ [(step, env.stepFinalText k)]
        past_steps := state.past_steps ++ [(step, env.stepSummary k)] } := by
  simp [pre_replan_state, execute_step, hplan]

/-- One loop unfolding when replan answers with a final response. -/
theorem while_loop_step_response (env : OrchEnv) (m rem iteration : Nat)
    (state : State) (step : String) (rest : List String) (r : String)
    (hplan : state.current_plan = step :: rest)
    (hr : env.replanAct (iteration + 1) = Act.response r) :
    while_loop env m (rem + 1) iteration state = .ok (iteration + 1,
      { state with
        tool_results := env.stepToolResults (iteration + 1) state.tool_results
        past_results := state.past_results ++ [(step, env.stepFinalText (iteration + 1))]
        past_steps := state.past_steps ++ [(step, env.stepSummary (iteration + 1))]
        response := r }) := by
  simp [while_loop, hplan, pre_replan_state, execute_step, hr]

/-- One loop unfolding when replan answers with a non-empty revised plan. -/
theorem while_loop_step_plan (env : OrchEnv) (m rem iteration : Nat)
    (state : State) (step : String) (rest steps : List String)
    (hplan : state.current_plan = step :: rest)
    (hr : env.replanAct (iteration + 1) = Act.plan steps) (hne : steps ≠ []) :
    while_loop env m (rem + 1) iteration state =
      while_loop env m rem (iteration + 1)
        { state with
          tool_results := env.stepToolResults (iteration + 1) state.tool_results
          past_results := state.past_results ++ [(step, env.stepFinalText (iteration + 1))]
          past_steps := state.past_steps ++ [(step, env.stepSummary (iteration + 1))]
          current_plan := steps } := by
  simp [while_loop, hplan, pre_replan_state, execute_step, hr, hne]

/-- One loop unfolding when replan empties the plan: the final-summary call
passes no state to the step executor and raises TypeError. -/
theorem while_loop_step_plan_empty (env : OrchEnv) (m rem iteration : Nat)
    (state : State) (step : String) (rest : List String)
    (hplan : state.current_plan = step :: rest)
    (hr : env.replanAct (iteration + 1) = Act.plan []) :
    while_loop env m (rem + 1) iteration state = .error RunError.typeError := by
  simp [while_loop, hplan, pre_replan_state, execute_step, hr,
    process_input_with_agent_loop]

/-- C4: the step at the head of current_plan when an iteration begins is the
last element appended to both past_steps and past_results in the state the
replan call observes, and after every iteration the two lists have equal
length (expressed as an invariant of the whole loop). -/
theorem C4_parallel_histories (env : OrchEnv) :
    (∀ (k : Nat) (state : State) (step : String) (rest : List String),
       state.current_plan = step :: rest →
       state.past_steps.length = state.past_results.length →
       ∃ st2, pre_replan_state env k state = .ok st2 ∧
         st2.past_steps = state.past_steps ++ [(step, env.stepSummary k)] ∧
         st2.past_results = state.past_results ++ [(step, env.stepFinalText k)] ∧
         st2.past_steps.length = st2.past_results.length) ∧
    (∀ (m remaining iteration : Nat) (state : State) (res : Nat × State),
       state.past_steps.length = state.past_results.length →
       while_loop env m remaining iteration state = .ok res →
       res.2.past_steps.length = res.2.past_results.length) := by
  constructor
  · intro k state step rest hplan hlen
    exact ⟨_, pre_replan_state_eq env k state step rest hplan, rfl, rfl, by simp [hlen]⟩
  · intro m remaining
    induction remaining with
    | zero =>
        intro iteration state res hlen h
        simp only [while_loop] at h
        injection h with h2
        subst h2
        exact hlen
    | succ rem ih =>
        intro iteration state res hlen h
        by_cases hp : state.current_plan = []
        · simp only [while_loop, if_pos hp] at h
          injection h with h2
          subst h2
          exact hlen
        · obtain ⟨step, rest, hsr⟩ : ∃ a l, state.current_plan = a :: l := by
            cases hcp : state.current_plan with
            | nil => exact absurd hcp hp
            | cons a l => exact ⟨a, l, rfl⟩
          cases hr : env.replanAct (iteration + 1) with
          | response r =>
              rw [while_loop_step_response env m rem iteration state step rest r hsr hr] at h
              injection h with h2
              subst h2
              simp [hlen]
          | plan steps =>
              by_cases hse : steps = []
              · subst hse
                rw [while_loop_step_plan_empty env m rem iteration state step rest hsr hr] at h
                cases h
              · rw [while_loop_step_plan env m rem iteration state step rest steps hsr hr hse] at h
                refine ih (iteration + 1) _ res ?_ h
                simp [hlen]

/-- C4 witness: the first iteration of the concrete one-step task. -/
theorem C4_parallel_histories_witness :
    ∃ st2, pre_replan_state orchEnvBase 1
        (after_initial_plan orchEnvBase
          (init_state "Say hello" ModelProvider.anthropic "david_test" "task-1" "session-1"))
      = .ok st2 ∧
      st2.past_steps = (after_initial_plan orchEnvBase
          (init_state "Say hello" ModelProvider.anthropic "david_test" "task-1" "session-1")).past_steps
        ++ [("Reply with a greeting", orchEnvBase.stepSummary 1)] ∧
      st2.past_results = (after_initial_plan orchEnvBase
          (init_state "Say hello" ModelProvider.anthropic "david_test" "task-1" "session-1")).past_results
        ++ [("Reply with a greeting", orchEnvBase.stepFinalText 1)] ∧
      st2.past_steps.length = st2.past_results.length :=
  (C4_parallel_histories orchEnvBase).1 1
    (after_initial_plan orchEnvBase
      (init_state "Say hello" ModelProvider.anthropic "david_test" "task-1" "session-1"))
    "Reply with a greeting" [] rfl rfl

/-- A run in which every replan up to some iteration continues with a
non-empty plan and the replan at that iteration returns a final response
reaches that iteration, sets the response, executes exactly one step per
iteration, and stops. -/
theorem while_loop_final_response (env : OrchEnv) (m : Nat) :
    ∀ (d : Nat), ∀ (iteration remaining : Nat) (state : State) (r : String),
      state.current_plan ≠ [] →
      (∀ k, iteration < k → k < iteration + d + 1 →
        ∃ steps, steps ≠ [] ∧ env.replanAct k = Act.plan steps) →
      env.replanAct (iteration + d + 1) = Act.response r →
      d + 1 ≤ remaining →
      ∃ stf, while_loop env m remaining iteration state = .ok (iteration + d + 1, stf) ∧
        stf.response = r ∧
        stf.past_steps.length = state.past_steps.length + (d + 1) ∧
        stf.past_results.length = state.past_results.length + (d + 1) ∧
        stf.current_plan ≠ [] := by
  intro d
  induction d with
  | zero =>
      intro iteration remaining state r hne hplans hresp hrem
      obtain ⟨step, rest, hsr⟩ : ∃ a l, state.current_plan = a :: l := by
        cases hcp : state.current_plan with
        | nil => exact absurd hcp hne
        | cons a l => exact ⟨a, l, rfl⟩
      obtain ⟨rem, rfl⟩ : ∃ rm, remaining = rm + 1 := ⟨remaining - 1, by omega⟩
      refine ⟨{ state with
          tool_results := env.stepToolResults (iteration + 1) state.tool_results
          past_results := state.past_results ++ [(step, env.stepFinalText (iteration + 1))]
          past_steps := state.past_steps ++ [(step, env.stepSummary (iteration + 1))]
          response := r }, ?_, rfl, by simp, by simp, by simp [hsr]⟩
      exact while_loop_step_response env m rem iteration state step rest r hsr hresp
  | succ d ih =>
      intro iteration remaining state r hne hplans hresp hrem
      obtain ⟨step, rest, hsr⟩ : ∃ a l, state.current_plan = a :: l := by
        cases hcp : state.current_plan with
        | nil => exact absurd hcp hne
        | cons a l => exact ⟨a, l, rfl⟩
      obtain ⟨rem, rfl⟩ : ∃ rm, remaining = rm + 1 := ⟨remaining - 1, by omega⟩
      obtain ⟨steps, hsne, hstep⟩ := hplans (iteration + 1) (by omega) (by omega)
      have hresp2 : env.replanAct (iteration + 1 + d + 1) = Act.response r := by
        have e : iteration + 1 + d + 1 = iteration + (d + 1) + 1 := by omega
        rw [e]
        exact hresp
      obtain ⟨stf, heq, hrespf, hl1, hl2, hcp⟩ :=
        ih (iteration + 1) rem
          { state with
            tool_results := env.stepToolResults (iteration + 1) state.tool_results
            past_results := state.past_results ++ [(step, env.stepFinalText (iteration + 1))]
            past_steps := state.past_steps ++ [(step, env.stepSummary (iteration + 1))]
            current_plan := steps } r (by simpa using hsne)
          (fun k hk1 hk2 => hplans k (by omega) (by omega)) hresp2 (by omega)
      refine ⟨stf, ?_, hrespf, ?_, ?_, hcp⟩
      · rw [while_loop_step_plan env m rem iteration state step rest steps hsr hstep hsne]
        rw [show iteration + (d + 1) + 1 = iteration + 1 + d + 1 by omega]
        exact heq
      · simp only [List.length_append, List.length_cons, List.length_nil] at hl1
        omega
      · simp only [List.length_append, List.length_cons, List.length_nil] at hl2
        omega

/-- The initial plan is never empty: extraction either produced steps or the
constant error plan is substituted. -/
theorem initial_plan_steps_ne_nil (env : OrchEnv) : initial_plan_steps env ≠ [] := by
  unfold initial_plan_steps
  split
  · simp
  · assumption

/-- C1 amended: when replan returns a FinalResponse at an iteration strictly
below max_iterations, the orchestrator sets state.response to that text,
executes no further steps (exactly i steps ran), and execute_plan returns
exactly that string. At iteration equal to max_iterations the post-loop cap
branch fires instead, see the counterexample. -/
theorem C1_final_response_before_cap (env : OrchEnv) (input_action : String)
    (provider : ModelProvider) (max_iterations : Nat)
    (user_id task_id langfuse_session_id : String) (i : Nat) (r : String)
    (h1 : 1 ≤ i) (h2 : i < max_iterations)
    (hresp : env.replanAct i = Act.response r)
    (hplans : ∀ k, 1 ≤ k → k < i → ∃ steps, steps ≠ [] ∧ env.replanAct k = Act.plan steps) :
    ∃ st, execute_plan_until_completion env
        (after_initial_plan env
          (init_state input_action provider user_id task_id langfuse_session_id))
        max_iterations = .ok st ∧
      st.response = r ∧ st.past_steps.length = i ∧ st.past_results.length = i ∧
      execute_plan env input_action provider max_iterations user_id task_id
        langfuse_session_id = .ok r := by
  set st1 : State := after_initial_plan env
    (init_state input_action provider user_id task_id langfuse_session_id) with hst1
  have hne : st1.current_plan ≠ [] := initial_plan_steps_ne_nil env
  obtain ⟨d, rfl⟩ : ∃ d, i = 0 + d + 1 := ⟨i - 1, by omega⟩
  obtain ⟨stf, heq, hrespf, hl1, hl2, hcpf⟩ :=
    while_loop_final_response env max_iterations d 0 max_iterations st1 r hne
      (fun k hk1 hk2 => hplans k (by omega) (by omega)) hresp (by omega)
  have hsteps0 : st1.past_steps = [] := rfl
  have hres0 : st1.past_results = [] := rfl
  have hepc : execute_plan_until_completion env st1 max_iterations = .ok stf := by
    have hlt : ¬ max_iterations ≤ 0 + d + 1 := by omega
    have hlt2 : ¬ max_iterations ≤ d + 1 := by omega
    simp [execute_plan_until_completion, heq, hlt, hlt2]
  refine ⟨stf, hepc, hrespf, ?_, ?_, ?_⟩
  · rw [hsteps0] at hl1
    simpa using hl1
  · rw [hres0] at hl2
    simpa using hl2
  · simp only [execute_plan, ← hst1, hepc]
    rw [hrespf]

/-- C1 counterexample: with max_iterations equal to 1, replan returns a
FinalResponse at iteration 1 (which is less than or equal to
max_iterations), yet execute_plan does not return that text: the post-loop
cap check sees the iteration counter at the cap with current_plan still
non-empty, and the state-less summary call raises TypeError. -/
theorem C1_final_response_at_cap_cex :
    orchEnvBase.replanAct 1 = Act.response "done" ∧
    execute_plan orchEnvBase "Say hello" ModelProvider.anthropic 1 "david_test"
      "task-1" "session-1" = .error RunError.typeError :=
  ⟨rfl, rfl⟩

/-- C1 witness: the concrete one-step task with max_iterations 2 returns the
final response. -/
theorem C1_final_response_before_cap_witness :
    ∃ st, execute_plan_until_completion orchEnvBase
        (after_initial_plan orchEnvBase
          (init_state "Say hello" ModelProvider.anthropic "david_test" "task-1" "session-1"))
        2 = .ok st ∧
      st.response = "done" ∧ st.past_steps.length = 1 ∧ st.past_results.length = 1 ∧
      execute_plan orchEnvBase "Say hello" ModelProvider.anthropic 2 "david_test"
        "task-1" "session-1" = .ok "done" :=
  C1_final_response_before_cap orchEnvBase "Say hello" ModelProvider.anthropic 2
    "david_test" "task-1" "session-1" 1 "done" (by omega) (by omega) rfl
    (by intro k hk1 hk2; exact absurd hk2 (by omega))

/-- C2: with max_iterations equal to 0 and a non-empty initial plan, the
loop exits immediately with current_plan non-empty; the orchestrator then
tries to build the incomplete-progress summary, but the call to the step
executor passes no state and raises TypeError inside
process_input_with_agent_loop, so execute_plan raises instead of setting
state.response and returning normally. -/
theorem C2_zero_iterations_crash :
    (after_initial_plan orchEnvBase
      (init_state "Say hello" ModelProvider.anthropic "david_test" "task-1" "session-1")).current_plan
      = ["Reply with a greeting"] ∧
    execute_plan orchEnvBase "Say hello" ModelProvider.anthropic 0 "david_test"
      "task-1" "session-1" = .error RunError.typeError :=
  ⟨rfl, rfl⟩
